/-
Verification of the order-book reconstruction, buffering, persistence and
retention logic of the binance-hft-data-collector repository.

The Python sources are shallowly embedded: Python `dict`s become ordered
association lists (preserving insertion order and key uniqueness semantics),
machine floats used only as wall-clock times or parsed decimal prices become
rationals, and each method becomes a pure function threading the state it
mutates.  Wall-clock reads (`time.time()`) become an explicit `now` argument.
-/
import Mathlib

/-! ### Strings: Python `str.upper()` for ASCII symbols -/

/-- ASCII uppercasing of one character, as Python `str.upper` acts on the
ASCII range used by instrument symbols. -/
def upperChar (c : Char) : Char :=
  if 97 ≤ c.toNat ∧ c.toNat ≤ 122 then Char.ofNat (c.toNat - 32) else c

/-- `symbol.upper()` on ASCII strings. -/
def upper (s : String) : String := ⟨s.data.map upperChar⟩

theorem toNat_charOfNat_of_valid (n : Nat) (h : Nat.isValidChar n) :
    (Char.ofNat n).toNat = n := by
  rw [Char.ofNat, dif_pos h]; rfl

theorem upperChar_idem (c : Char) : upperChar (upperChar c) = upperChar c := by
  unfold upperChar
  by_cases h : 97 ≤ c.toNat ∧ c.toNat ≤ 122
  · rw [if_pos h]
    have hv : Nat.isValidChar (c.toNat - 32) := Or.inl (by omega)
    have ht : (Char.ofNat (c.toNat - 32)).toNat = c.toNat - 32 :=
      toNat_charOfNat_of_valid _ hv
    rw [if_neg (by rw [ht]; omega)]
  · rw [if_neg h, if_neg h]

theorem upper_idem (s : String) : upper (upper s) = upper s := by
  show (⟨(s.data.map upperChar).map upperChar⟩ : String) = ⟨s.data.map upperChar⟩
  rw [List.map_map]
  have : ∀ l : List Char, l.map (upperChar ∘ upperChar) = l.map upperChar := by
    intro l
    induction l with
    | nil => rfl
    | cons c l ih => simp [Function.comp, upperChar_idem, ih]
  rw [this]

/-! ### Ordered dictionaries (Python `dict[str, str]`) -/

/-- First-match lookup in an association list; with unique keys this is
exactly Python `dict.get`. -/
def lookupStr : List (String × String) → String → Option String
  | [], _ => none
  | p :: d, k => if p.1 = k then some p.2 else lookupStr d k

/-- Python `dict.pop(key, None)`: remove the key if present. -/
def dictPop (d : List (String × String)) (k : String) : List (String × String) :=
  d.filter (fun p => p.1 ≠ k)

/-- Python `dict[key] = value`: replace in place if present, else append
at the end (insertion order). -/
def dictSet (d : List (String × String)) (k v : String) : List (String × String) :=
  if d.any (fun p => p.1 = k) then d.map (fun p => if p.1 = k then (k, v) else p)
  else d ++ [(k, v)]

theorem lookupStr_dictPop (d : List (String × String)) (k k' : String) :
    lookupStr (dictPop d k) k' = if k' = k then none else lookupStr d k' := by
  induction d with
  | nil => by_cases h : k' = k <;> simp [h, dictPop, lookupStr]
  | cons p d ih =>
    by_cases hp : p.1 = k
    · have hfilter : dictPop (p :: d) k = dictPop d k := by
        simp [dictPop, hp]
      rw [hfilter, ih]
      by_cases hk : k' = k
      · simp [hk]
      · have hpk' : ¬ p.1 = k' := fun h => hk (by rw [← h, hp])
        simp [hk, lookupStr, hpk']
    · have hfilter : dictPop (p :: d) k = p :: dictPop d k := by
        simp [dictPop, hp]
      rw [hfilter]
      by_cases hk : k' = k
      · subst hk
        simp only [lookupStr, if_neg hp, if_pos rfl]
        simpa using ih
      · by_cases hpk' : p.1 = k'
        · simp [lookupStr, hpk', hk]
        · simp only [lookupStr, if_neg hpk', if_neg hk]
          simpa [hk] using ih

theorem lookupStr_mapReplace (d : List (String × String)) (k v k' : String) :
    lookupStr (d.map (fun p => if p.1 = k then (k, v) else p)) k' =
      if k' = k then (if d.any (fun p => p.1 = k) then some v else none)
      else lookupStr d k' := by
  induction d with
  | nil => by_cases h : k' = k <;> simp [h, lookupStr]
  | cons p d ih =>
    by_cases hp : p.1 = k
    · by_cases hk : k' = k
      · simp [lookupStr, hp, hk]
      · have hkk : ¬ k = k' := fun h => hk h.symm
        have hpk' : ¬ p.1 = k' := fun h => hk (by rw [← h, hp])
        simp only [List.map_cons, if_pos hp, lookupStr, if_neg hkk]
        rw [ih]
        simp [hk, lookupStr, hpk']
    · by_cases hpk' : p.1 = k'
      · have hk : ¬ k' = k := fun h => hp (by rw [hpk', h])
        simp [lookupStr, hp, hpk', hk]
      · simp only [List.map_cons, if_neg hp, lookupStr, if_neg hpk']
        rw [ih]
        by_cases hk : k' = k
        · simp only [if_pos hk, List.any_cons, decide_eq_false hp, Bool.false_or]
        · simp [hk, lookupStr, hpk']

theorem lookupStr_eq_none (d : List (String × String)) (k : String)
    (h : d.any (fun p => p.1 = k) = false) : lookupStr d k = none := by
  induction d with
  | nil => rfl
  | cons p d ih =>
    simp only [List.any_cons, Bool.or_eq_false_iff, decide_eq_false_iff_not] at h
    simp only [lookupStr, if_neg h.1]
    exact ih h.2

theorem lookupStr_append (d e : List (String × String)) (k : String) :
    lookupStr (d ++ e) k = (lookupStr d k).or (lookupStr e k) := by
  induction d with
  | nil => simp [lookupStr]
  | cons p d ih =>
    by_cases hp : p.1 = k <;> simp [lookupStr, hp, ih]

theorem lookupStr_dictSet (d : List (String × String)) (k v k' : String) :
    lookupStr (dictSet d k v) k' = if k' = k then some v else lookupStr d k' := by
  unfold dictSet
  by_cases hmem : d.any (fun p => p.1 = k)
  · rw [if_pos hmem, lookupStr_mapReplace, if_pos hmem]
  · rw [if_neg hmem, lookupStr_append]
    by_cases hk : k' = k
    · rw [hk, lookupStr_eq_none d k (by
        simp only [Bool.not_eq_true] at hmem; exact hmem)]
      simp [lookupStr]
    · have : lookupStr [(k, v)] k' = none := by
        simp [lookupStr]
        exact fun h => absurd h.symm hk
      rw [this, if_neg hk]
      cases lookupStr d k' <;> rfl

/-! ### Data model (src/models.py) -/

/-- `DepthDiffEvent` from src/models.py; times as rationals, price/qty
level updates as ordered (price, qty) string pairs. -/
structure DepthDiffEvent where
  symbol : String
  event_time : Int
  recv_time : ℚ
  first_update_id : Int
  final_update_id : Int
  bids : List (String × String)
  asks : List (String × String)
deriving DecidableEq

/-- `OrderBookState` from src/models.py. -/
structure OrderBookState where
  bids : List (String × String)
  asks : List (String × String)
  last_update_id : Int
  initialized : Bool
  init_time : ℚ
deriving DecidableEq

/-- `OrderBookSnapshot` from src/models.py. -/
structure OrderBookSnapshot where
  symbol : String
  event_time : Int
  recv_time : ℚ
  last_update_id : Int
  bids : List (String × String)
  asks : List (String × String)
deriving DecidableEq

/-! ### IntegrityLogger (src/integrity_logger.py): gap recording -/

/-- One entry of `IntegrityLogger._gaps`. -/
structure GapRecord where
  timestamp : ℚ
  symbol : String
  expected_id : Int
  actual_id : Int
deriving DecidableEq

/-- The in-memory state of `IntegrityLogger` that the verified claims
touch: the gap list and the sync-event list (filepath, status). -/
structure IntegrityLoggerState where
  gaps : List GapRecord
  sync_events : List (String × String)
deriving DecidableEq

def MAX_GAP_BUFFER : Nat := 10000

/-- `IntegrityLogger.record_gap`: trim to the most recent
`MAX_GAP_BUFFER // 2` entries when the bound is hit, then append. -/
def recordGap (l : IntegrityLoggerState) (symbol : String)
    (expected_id actual_id : Int) (timestamp : ℚ) : IntegrityLoggerState :=
  let gaps := if MAX_GAP_BUFFER ≤ l.gaps.length
    then l.gaps.drop (l.gaps.length - MAX_GAP_BUFFER / 2)
    else l.gaps
  { l with gaps := gaps ++
    [{ timestamp := timestamp, symbol := symbol,
       expected_id := expected_id, actual_id := actual_id }] }

/-! ### OrderBookManager (src/orderbook_manager.py) -/

/-- `self.books`: dict from upper-cased symbol to `OrderBookState`. -/
def lookupBook : List (String × OrderBookState) → String → Option OrderBookState
  | [], _ => none
  | p :: d, k => if p.1 = k then some p.2 else lookupBook d k

/-- In-place mutation of the `OrderBookState` stored under an existing
key (Python mutates the book object; the dict keys never change). -/
def setBook (books : List (String × OrderBookState)) (k : String)
    (v : OrderBookState) : List (String × OrderBookState) :=
  books.map (fun p => if p.1 = k then (k, v) else p)

/-- `OrderBookManager` state: the fixed symbol list, the books dict and
the optional `IntegrityLogger`. -/
structure ManagerState where
  symbols : List String
  books : List (String × OrderBookState)
  ilog : Option IntegrityLoggerState
deriving DecidableEq

/-- `OrderBookManager.__init__`: one empty book per upper-cased symbol. -/
def mkManager (symbols : List String) (ilog : Option IntegrityLoggerState) :
    ManagerState :=
  { symbols := symbols,
    books := symbols.map (fun s =>
      (upper s,
       { bids := [], asks := [], last_update_id := 0,
         initialized := false, init_time := 0 })),
    ilog := ilog }

/-- `OrderBookManager.validate_sequence`:
`F <= last_update_id + 1 <= L`, `False` for unknown or uninitialized books. -/
def validateSequence (mgr : ManagerState) (symbol : String)
    (first_update_id final_update_id : Int) : Bool :=
  let sym := upper symbol
  match lookupBook mgr.books sym with
  | none => false
  | some state =>
    if state.initialized = false then false
    else decide (first_update_id ≤ state.last_update_id + 1 ∧
                 state.last_update_id + 1 ≤ final_update_id)

/-- One step of `OrderBookManager._apply_updates`: a `"0"` or
`"0.00000000"` quantity pops the price, anything else upserts it. -/
def applyUpdate (side : List (String × String)) (u : String × String) :
    List (String × String) :=
  if u.2 = "0" ∨ u.2 = "0.00000000" then dictPop side u.1
  else dictSet side u.1 u.2

/-- `OrderBookManager._apply_updates` over one side of the book. -/
def applyUpdates (side : List (String × String))
    (updates : List (String × String)) : List (String × String) :=
  updates.foldl applyUpdate side

/-- Numeric value of a decimal price string: Python `float(p)` on the
plain (optionally signed) decimal strings used as price keys, taken
exactly as a rational. -/
def digitsVal (l : List Char) : Nat :=
  l.foldl (fun a c => a * 10 + (c.toNat - 48)) 0

def priceValAux (l : List Char) : ℚ :=
  let intPart := l.takeWhile (fun c => c ≠ '.')
  let fracPart := (l.dropWhile (fun c => c ≠ '.')).drop 1
  mkRat (digitsVal intPart * 10 ^ fracPart.length + digitsVal fracPart)
    (10 ^ fracPart.length)

def priceVal (s : String) : ℚ :=
  match s.data with
  | '-' :: rest => -(priceValAux rest)
  | l => priceValAux l

/-- Comparator of `sorted(..., key=lambda x: float(x[0]), reverse=True)`. -/
def bidLe (a b : String × String) : Bool := decide (priceVal b.1 ≤ priceVal a.1)

/-- Comparator of `sorted(..., key=lambda x: float(x[0]))`. -/
def askLe (a b : String × String) : Bool := decide (priceVal a.1 ≤ priceVal b.1)

/-- Body of `OrderBookManager.get_top_levels` once the book state is in
hand: stable-sort both sides by numeric price (bids descending, asks
ascending) and truncate to `levels` entries. -/
def getTopLevelsState (state : OrderBookState) (sym : String) (levels : Nat)
    (event_time : Int) (recv_time : ℚ) : OrderBookSnapshot :=
  { symbol := sym, event_time := event_time, recv_time := recv_time,
    last_update_id := state.last_update_id,
    bids := (state.bids.mergeSort bidLe).take levels,
    asks := (state.asks.mergeSort askLe).take levels }

/-- `OrderBookManager.get_top_levels`; `none` models the `KeyError` on a
symbol absent from `self.books`. -/
def getTopLevels (mgr : ManagerState) (symbol : String) (levels : Nat)
    (event_time : Int) (recv_time : ℚ) : Option OrderBookSnapshot :=
  (lookupBook mgr.books (upper symbol)).map
    (fun st => getTopLevelsState st (upper symbol) levels event_time recv_time)

/-- `OrderBookManager.apply_diff`.  `now` stands for `time.time()` at the
moment of the call; the returned pair is (return value, state after the
call). -/
def applyDiff (mgr : ManagerState) (symbol : String) (event : DepthDiffEvent)
    (now : ℚ) : Option OrderBookSnapshot × ManagerState :=
  let sym := upper symbol
  match lookupBook mgr.books sym with
  | none => (none, mgr)
  | some state =>
    if state.initialized = false then (none, mgr)
    else
      let expected := state.last_update_id + 1
      if event.final_update_id < expected then (none, mgr)
      else if validateSequence mgr sym event.first_update_id
          event.final_update_id = false then
        if now - state.init_time < 3 then (none, mgr)
        else
          (none, { mgr with
            books := setBook mgr.books sym { state with initialized := false },
            ilog := mgr.ilog.map
              (fun l => recordGap l sym expected event.first_update_id now) })
      else
        let state' := { state with
          bids := applyUpdates state.bids event.bids,
          asks := applyUpdates state.asks event.asks,
          last_update_id := event.final_update_id }
        let mgr' := { mgr with books := setBook mgr.books sym state' }
        (getTopLevels mgr' sym 20 event.event_time event.recv_time, mgr')

/-! ### Lemmas about the books dictionary -/

theorem lookupBook_setBook (books : List (String × OrderBookState))
    (k : String) (v : OrderBookState) (k' : String) :
    lookupBook (setBook books k v) k' =
      if k' = k then (if books.any (fun p => p.1 = k) then some v else none)
      else lookupBook books k' := by
  induction books with
  | nil => by_cases h : k' = k <;> simp [h, setBook, lookupBook]
  | cons p d ih =>
    by_cases hp : p.1 = k
    · by_cases hk : k' = k
      · simp [setBook, lookupBook, hp, hk]
      · have hkk : ¬ k = k' := fun h => hk h.symm
        have hpk' : ¬ p.1 = k' := fun h => hk (by rw [← h, hp])
        simp only [setBook, List.map_cons, if_pos hp, lookupBook, if_neg hkk]
        rw [show List.map (fun p => if p.1 = k then (k, v) else p) d =
          setBook d k v from rfl, ih]
        simp [hk, lookupBook, hpk']
    · by_cases hpk' : p.1 = k'
      · have hk : ¬ k' = k := fun h => hp (by rw [hpk', h])
        simp [setBook, lookupBook, hp, hpk', hk]
      · simp only [setBook, List.map_cons, if_neg hp, lookupBook, if_neg hpk']
        rw [show List.map (fun p => if p.1 = k then (k, v) else p) d =
          setBook d k v from rfl, ih]
        by_cases hk : k' = k
        · simp only [if_pos hk, List.any_cons, decide_eq_false hp, Bool.false_or]
        · simp [hk, lookupBook, hpk']

theorem lookupBook_any (books : List (String × OrderBookState)) (k : String)
    (st : OrderBookState) (h : lookupBook books k = some st) :
    books.any (fun p => p.1 = k) = true := by
  induction books with
  | nil => exact absurd h (by simp [lookupBook])
  | cons p d ih =>
    by_cases hp : p.1 = k
    · simp [hp]
    · simp only [lookupBook, if_neg hp] at h
      simp [ih h]

theorem lookupBook_setBook_self (books : List (String × OrderBookState))
    (k : String) (st v : OrderBookState) (h : lookupBook books k = some st) :
    lookupBook (setBook books k v) k = some v := by
  rw [lookupBook_setBook, if_pos rfl, if_pos (lookupBook_any books k st h)]

theorem validateSequence_upper (mgr : ManagerState) (s : String)
    (F L : Int) : validateSequence mgr (upper s) F L = validateSequence mgr s F L := by
  unfold validateSequence
  rw [upper_idem]

theorem validateSequence_eq (mgr : ManagerState) (s : String)
    (st : OrderBookState) (F L : Int)
    (h : lookupBook mgr.books (upper s) = some st)
    (hi : st.initialized = true) :
    validateSequence mgr s F L =
      decide (F ≤ st.last_update_id + 1 ∧ st.last_update_id + 1 ≤ L) := by
  simp only [validateSequence, h, hi]
  simp

/-! ### Claim C3: stale diffs are a total no-op -/

/-- C3: for every initialized book state and every diff with
`final_update_id < last_update_id + 1`, `apply_diff` returns `None`,
records no gap, does not clear the `initialized` flag, and leaves the
entire book state (levels, `last_update_id`, `init_time`) unchanged. -/
theorem stale_diff_is_noop (mgr : ManagerState) (s : String)
    (st : OrderBookState) (e : DepthDiffEvent) (now : ℚ)
    (h : lookupBook mgr.books (upper s) = some st)
    (hi : st.initialized = true)
    (hstale : e.final_update_id < st.last_update_id + 1) :
    applyDiff mgr s e now = (none, mgr) := by
  simp only [applyDiff, h, hi]
  simp [hstale]

/-- Witness for C3 at a concrete input. -/
theorem stale_diff_is_noop_witness :
    applyDiff
      { symbols := ["BTCUSDT"],
        books := [("BTCUSDT",
          { bids := [("100", "1")], asks := [("101", "2")],
            last_update_id := 100, initialized := true, init_time := 0 })],
        ilog := some { gaps := [], sync_events := [] } }
      "BTCUSDT"
      { symbol := "BTCUSDT", event_time := 5, recv_time := 5,
        first_update_id := 90, final_update_id := 95,
        bids := [("100", "3")], asks := [] }
      10
    = (none,
      { symbols := ["BTCUSDT"],
        books := [("BTCUSDT",
          { bids := [("100", "1")], asks := [("101", "2")],
            last_update_id := 100, initialized := true, init_time := 0 })],
        ilog := some { gaps := [], sync_events := [] } }) :=
  stale_diff_is_noop _ _
    { bids := [("100", "1")], asks := [("101", "2")],
      last_update_id := 100, initialized := true, init_time := 0 }
    _ _ (by decide) rfl (by decide)

/-! ### Claim C10: unknown or uninitialized instruments rejected totally -/

/-- C10: for every symbol whose upper-cased form is not a key of the books
map, and every diff and id pair, `apply_diff` returns `None` leaving the
whole manager state untouched, and `validate_sequence` returns `False`;
no book entry is created. -/
theorem unknown_symbol_rejected (mgr : ManagerState) (s : String)
    (e : DepthDiffEvent) (now : ℚ) (F L : Int)
    (h : lookupBook mgr.books (upper s) = none) :
    applyDiff mgr s e now = (none, mgr) ∧
    validateSequence mgr s F L = false := by
  constructor
  · simp only [applyDiff, h]
  · simp only [validateSequence, h]

/-- Witness for C10 at a concrete input: a symbol outside the instrument
set fixed at construction. -/
theorem unknown_symbol_rejected_witness :
    applyDiff (mkManager ["BTCUSDT"] (some { gaps := [], sync_events := [] }))
      "ethusdt"
      { symbol := "ethusdt", event_time := 1, recv_time := 1,
        first_update_id := 1, final_update_id := 2,
        bids := [], asks := [] } 0
      = (none, mkManager ["BTCUSDT"] (some { gaps := [], sync_events := [] })) ∧
    validateSequence
      (mkManager ["BTCUSDT"] (some { gaps := [], sync_events := [] }))
      "ethusdt" 1 2 = false :=
  unknown_symbol_rejected _ _ _ _ 1 2 (by decide)


/-! ### Path equations for apply_diff -/

theorem applyDiff_grace_eq (mgr : ManagerState) (s : String)
    (st : OrderBookState) (e : DepthDiffEvent) (now : ℚ)
    (h : lookupBook mgr.books (upper s) = some st)
    (hi : st.initialized = true)
    (hfresh : st.last_update_id + 1 ≤ e.final_update_id)
    (hv : validateSequence mgr s e.first_update_id e.final_update_id = false)
    (hgrace : now - st.init_time < 3) :
    applyDiff mgr s e now = (none, mgr) := by
  have hnstale : ¬ e.final_update_id < st.last_update_id + 1 := not_lt.mpr hfresh
  have hv' : validateSequence mgr (upper s) e.first_update_id
      e.final_update_id = false := by rw [validateSequence_upper]; exact hv
  simp [applyDiff, h, hi, hnstale, hv', hgrace]

theorem applyDiff_gap_eq (mgr : ManagerState) (s : String)
    (st : OrderBookState) (e : DepthDiffEvent) (now : ℚ)
    (h : lookupBook mgr.books (upper s) = some st)
    (hi : st.initialized = true)
    (hfresh : st.last_update_id + 1 ≤ e.final_update_id)
    (hv : validateSequence mgr s e.first_update_id e.final_update_id = false)
    (hgrace : 3 ≤ now - st.init_time) :
    applyDiff mgr s e now =
      (none, { mgr with
        books := setBook mgr.books (upper s) ({ st with initialized := false }),
        ilog := mgr.ilog.map (fun l =>
          recordGap l (upper s) (st.last_update_id + 1)
            e.first_update_id now) }) := by
  have hnstale : ¬ e.final_update_id < st.last_update_id + 1 := not_lt.mpr hfresh
  have hngrace : ¬ now - st.init_time < 3 := not_lt.mpr hgrace
  have hv' : validateSequence mgr (upper s) e.first_update_id
      e.final_update_id = false := by rw [validateSequence_upper]; exact hv
  simp [applyDiff, h, hi, hnstale, hv', hngrace]

/-- The book state after the success path of `apply_diff` has applied
both sides' updates and advanced `last_update_id`. -/
def diffAppliedState (st : OrderBookState) (e : DepthDiffEvent) : OrderBookState :=
  { st with bids := applyUpdates st.bids e.bids,
            asks := applyUpdates st.asks e.asks,
            last_update_id := e.final_update_id }

/-- The manager state after the success path of `apply_diff`. -/
def diffAppliedMgr (mgr : ManagerState) (sym : String) (st : OrderBookState)
    (e : DepthDiffEvent) : ManagerState :=
  { mgr with books := setBook mgr.books sym (diffAppliedState st e) }

theorem applyDiff_ok_eq (mgr : ManagerState) (s : String)
    (st : OrderBookState) (e : DepthDiffEvent) (now : ℚ)
    (h : lookupBook mgr.books (upper s) = some st)
    (hi : st.initialized = true)
    (hfresh : st.last_update_id + 1 ≤ e.final_update_id)
    (hv : validateSequence mgr s e.first_update_id e.final_update_id = true) :
    applyDiff mgr s e now =
      (getTopLevels (diffAppliedMgr mgr (upper s) st e) (upper s) 20
        e.event_time e.recv_time,
       diffAppliedMgr mgr (upper s) st e) := by
  have hnstale : ¬ e.final_update_id < st.last_update_id + 1 := not_lt.mpr hfresh
  have hv' : validateSequence mgr (upper s) e.first_update_id
      e.final_update_id = true := by rw [validateSequence_upper]; exact hv
  simp [applyDiff, h, hi, hnstale, hv', diffAppliedMgr, diffAppliedState]

/-! ### Claim C1: continuity predicate is the sole gap/no-gap decision -/

/-- C1: for every initialized book state, `validate_sequence` returns true
iff `first_update_id <= last_update_id + 1 <= final_update_id`; and for a
non-stale diff outside the grace period, `apply_diff` takes the gap path
(the stored book comes out with `initialized = false`) exactly when this
predicate is false. -/
theorem validateSequence_iff_sole_gap_decision (mgr : ManagerState)
    (s : String) (st : OrderBookState) (e : DepthDiffEvent) (now : ℚ)
    (F L : Int)
    (h : lookupBook mgr.books (upper s) = some st)
    (hi : st.initialized = true) :
    (validateSequence mgr s F L = true ↔
      F ≤ st.last_update_id + 1 ∧ st.last_update_id + 1 ≤ L) ∧
    (st.last_update_id + 1 ≤ e.final_update_id →
     3 ≤ now - st.init_time →
     ((∃ st', lookupBook (applyDiff mgr s e now).2.books (upper s) = some st' ∧
         st'.initialized = false) ↔
       validateSequence mgr s e.first_update_id e.final_update_id = false)) := by
  constructor
  · rw [validateSequence_eq mgr s st F L h hi]
    exact decide_eq_true_iff
  · intro hfresh hgrace
    by_cases hv : validateSequence mgr s e.first_update_id e.final_update_id = false
    · rw [applyDiff_gap_eq mgr s st e now h hi hfresh hv hgrace]
      constructor
      · intro _; exact hv
      · intro _
        exact ⟨{ st with initialized := false },
          lookupBook_setBook_self mgr.books (upper s) st _ h, rfl⟩
    · have hvt : validateSequence mgr s e.first_update_id
          e.final_update_id = true := by
        cases hvv : validateSequence mgr s e.first_update_id e.final_update_id
        · exact absurd hvv hv
        · rfl
      rw [applyDiff_ok_eq mgr s st e now h hi hfresh hvt]
      constructor
      · rintro ⟨st'', hlook, hinit⟩
        have hself : lookupBook (diffAppliedMgr mgr (upper s) st e).books
            (upper s) = some (diffAppliedState st e) :=
          lookupBook_setBook_self mgr.books (upper s) st _ h
        rw [hself] at hlook
        cases hlook
        have : st.initialized = false := by
          simpa [diffAppliedState] using hinit
        rw [hi] at this
        exact absurd this (by simp)
      · intro hfalse
        rw [hvt] at hfalse
        exact absurd hfalse (by simp)

/-- Witness for C1 at a concrete input, discharging every hypothesis. -/
theorem validateSequence_iff_sole_gap_decision_witness :
    lookupBook [("BTCUSDT",
        ({ bids := [], asks := [], last_update_id := 100,
           initialized := true, init_time := 0 } : OrderBookState))]
      (upper "BTCUSDT") =
      some ({ bids := [], asks := [], last_update_id := 100,
              initialized := true, init_time := 0 }) ∧
    ((100 : Int) + 1 ≤ 160) ∧ ((3 : ℚ) ≤ 10 - 0) ∧
    (validateSequence
        { symbols := ["BTCUSDT"],
          books := [("BTCUSDT",
            { bids := [], asks := [], last_update_id := 100,
              initialized := true, init_time := 0 })],
          ilog := some { gaps := [], sync_events := [] } }
        "BTCUSDT" 99 101 = true ↔ ((99 : Int) ≤ 100 + 1 ∧ (100 : Int) + 1 ≤ 101)) ∧
    ((∃ st', lookupBook (applyDiff
          { symbols := ["BTCUSDT"],
            books := [("BTCUSDT",
              { bids := [], asks := [], last_update_id := 100,
                initialized := true, init_time := 0 })],
            ilog := some { gaps := [], sync_events := [] } }
          "BTCUSDT"
          { symbol := "BTCUSDT", event_time := 7, recv_time := 7,
            first_update_id := 150, final_update_id := 160,
            bids := [], asks := [] } 10).2.books
          (upper "BTCUSDT") = some st' ∧ st'.initialized = false) ↔
       validateSequence
          { symbols := ["BTCUSDT"],
            books := [("BTCUSDT",
              { bids := [], asks := [], last_update_id := 100,
                initialized := true, init_time := 0 })],
            ilog := some { gaps := [], sync_events := [] } }
          "BTCUSDT" 150 160 = false) :=
  ⟨by decide, by decide, by norm_num,
   (validateSequence_iff_sole_gap_decision _ "BTCUSDT"
      { bids := [], asks := [], last_update_id := 100,
        initialized := true, init_time := 0 }
      { symbol := "BTCUSDT", event_time := 7, recv_time := 7,
        first_update_id := 150, final_update_id := 160,
        bids := [], asks := [] }
      10 99 101 (by decide) rfl).1,
   (validateSequence_iff_sole_gap_decision _ "BTCUSDT"
      { bids := [], asks := [], last_update_id := 100,
        initialized := true, init_time := 0 }
      { symbol := "BTCUSDT", event_time := 7, recv_time := 7,
        first_update_id := 150, final_update_id := 160,
        bids := [], asks := [] }
      10 99 101 (by decide) rfl).2 (by decide) (by norm_num)⟩

/-! ### Claim C2: grace period and gap recording -/

/-- C2: for every initialized book and every non-stale diff failing the
continuity check: inside the 3-time-unit grace period `apply_diff` returns
`None` with nothing changed (no gap recorded, book untouched); at or past
the grace period it returns `None`, records a gap (instrument, expected
id, actual first id, time) through the integrity logger, and clears the
`initialized` flag. -/
theorem grace_period_and_gap_recording (mgr : ManagerState) (s : String)
    (st : OrderBookState) (e : DepthDiffEvent) (now : ℚ)
    (h : lookupBook mgr.books (upper s) = some st)
    (hi : st.initialized = true)
    (hfresh : st.last_update_id + 1 ≤ e.final_update_id)
    (hv : validateSequence mgr s e.first_update_id e.final_update_id = false) :
    (now - st.init_time < 3 → applyDiff mgr s e now = (none, mgr)) ∧
    (3 ≤ now - st.init_time →
      (applyDiff mgr s e now).1 = none ∧
      lookupBook (applyDiff mgr s e now).2.books (upper s) =
        some ({ st with initialized := false }) ∧
      (applyDiff mgr s e now).2.ilog = mgr.ilog.map (fun l =>
        recordGap l (upper s) (st.last_update_id + 1)
          e.first_update_id now)) := by
  constructor
  · intro hgrace
    exact applyDiff_grace_eq mgr s st e now h hi hfresh hv hgrace
  · intro hgrace
    rw [applyDiff_gap_eq mgr s st e now h hi hfresh hv hgrace]
    refine ⟨rfl, ?_, rfl⟩
    exact lookupBook_setBook_self mgr.books (upper s) st _ h

/-- Witness for C2 at a concrete input outside the grace period,
discharging every hypothesis. -/
theorem grace_period_and_gap_recording_witness :
    ((100 : Int) + 1 ≤ 160) ∧ ((3 : ℚ) ≤ 10 - 5) ∧
    validateSequence
      { symbols := ["BTCUSDT"],
        books := [("BTCUSDT",
          { bids := [], asks := [], last_update_id := 100,
            initialized := true, init_time := 5 })],
        ilog := some { gaps := [], sync_events := [] } }
      "BTCUSDT" 150 160 = false ∧
    ((applyDiff
        { symbols := ["BTCUSDT"],
          books := [("BTCUSDT",
            { bids := [], asks := [], last_update_id := 100,
              initialized := true, init_time := 5 })],
          ilog := some { gaps := [], sync_events := [] } }
        "BTCUSDT"
        { symbol := "BTCUSDT", event_time := 7, recv_time := 7,
          first_update_id := 150, final_update_id := 160,
          bids := [], asks := [] } 10).1 = none ∧
      lookupBook (applyDiff
        { symbols := ["BTCUSDT"],
          books := [("BTCUSDT",
            { bids := [], asks := [], last_update_id := 100,
              initialized := true, init_time := 5 })],
          ilog := some { gaps := [], sync_events := [] } }
        "BTCUSDT"
        { symbol := "BTCUSDT", event_time := 7, recv_time := 7,
          first_update_id := 150, final_update_id := 160,
          bids := [], asks := [] } 10).2.books (upper "BTCUSDT") =
        some ({ bids := [], asks := [], last_update_id := 100,
                initialized := false, init_time := 5 }) ∧
      (applyDiff
        { symbols := ["BTCUSDT"],
          books := [("BTCUSDT",
            { bids := [], asks := [], last_update_id := 100,
              initialized := true, init_time := 5 })],
          ilog := some { gaps := [], sync_events := [] } }
        "BTCUSDT"
        { symbol := "BTCUSDT", event_time := 7, recv_time := 7,
          first_update_id := 150, final_update_id := 160,
          bids := [], asks := [] } 10).2.ilog =
      (some { gaps := [], sync_events := [] } :
          Option IntegrityLoggerState).map (fun l =>
        recordGap l (upper "BTCUSDT") (100 + 1) 150 10)) :=
  ⟨by decide, by norm_num, by decide,
   (grace_period_and_gap_recording _ "BTCUSDT"
      { bids := [], asks := [], last_update_id := 100,
        initialized := true, init_time := 5 }
      { symbol := "BTCUSDT", event_time := 7, recv_time := 7,
        first_update_id := 150, final_update_id := 160,
        bids := [], asks := [] }
      10 (by decide) rfl (by decide) (by decide)).2 (by norm_num)⟩

/-! ### Claim C4: level-update semantics of _apply_updates -/

/-- Specification function: the quantity of the last update in the list
naming a given price, if any. -/
def lastQty : List (String × String) → String → Option String
  | [], _ => none
  | u :: us, p =>
    match lastQty us p with
    | some q => some q
    | none => if u.1 = p then some u.2 else none

theorem lookupStr_applyUpdate (side : List (String × String))
    (u : String × String) (p : String) :
    lookupStr (applyUpdate side u) p =
      if u.1 = p then (if u.2 = "0" ∨ u.2 = "0.00000000" then none else some u.2)
      else lookupStr side p := by
  unfold applyUpdate
  by_cases hz : u.2 = "0" ∨ u.2 = "0.00000000"
  · rw [if_pos hz, lookupStr_dictPop]
    by_cases hp : u.1 = p
    · rw [if_pos hp, if_pos hp.symm, if_pos hz]
    · rw [if_neg hp, if_neg (fun h => hp h.symm)]
  · rw [if_neg hz, lookupStr_dictSet]
    by_cases hp : u.1 = p
    · rw [if_pos hp, if_pos hp.symm, if_neg hz]
    · rw [if_neg hp, if_neg (fun h => hp h.symm)]

/-- C4 (amended): after a sequence of level updates, a price named by
some update holds the quantity of the last update naming it, except that
a last quantity of "0" or "0.00000000" removes the level; prices named
by no update keep their prior quantity. -/
theorem applyUpdates_level_semantics (side : List (String × String))
    (updates : List (String × String)) (p : String) :
    lookupStr (applyUpdates side updates) p =
      match lastQty updates p with
      | some q => if q = "0" ∨ q = "0.00000000" then none else some q
      | none => lookupStr side p := by
  induction updates generalizing side with
  | nil => rfl
  | cons u us ih =>
    show lookupStr (applyUpdates (applyUpdate side u) us) p = _
    rw [ih]
    cases hlast : lastQty us p with
    | some q => simp only [lastQty, hlast]
    | none =>
      simp only [lastQty, hlast]
      rw [lookupStr_applyUpdate]
      by_cases hp : u.1 = p
      · rw [if_pos hp, if_pos hp]
      · rw [if_neg hp, if_neg hp]

/-- C4 as frozen is false on the code: an update with the quantity string
"0.00000000" (which is not "0") removes the price level instead of
upserting it. -/
theorem applyUpdates_zero_padded_counterexample :
    lookupStr (applyUpdates [("1.0", "5")] [("1.0", "0.00000000")]) "1.0"
      ≠ some "0.00000000" ∧
    ("0.00000000" : String) ≠ "0" ∧
    lookupStr (applyUpdates [("1.0", "5")] [("1.0", "0.00000000")]) "1.0"
      = none := by
  refine ⟨?_, ?_, ?_⟩ <;> decide

/-! ### Claim C5: get_top_levels ordering and truncation -/

theorem mergeSort_take_sorted {α : Type} (le : α → α → Bool)
    (trans : ∀ a b c, le a b → le b c → le a c)
    (total : ∀ a b, le a b || le b a)
    (l : List α) (n : Nat) :
    ((l.mergeSort le).take n).Pairwise (fun a b => le a b = true) :=
  (List.sorted_mergeSort trans total l).sublist (List.take_sublist n _)

theorem mergeSort_take_strict {α : Type} (le : α → α → Bool)
    (r : α → α → Prop)
    (trans : ∀ a b c, le a b → le b c → le a c)
    (total : ∀ a b, le a b || le b a)
    (f : α → ℚ)
    (himp : ∀ a b, le a b = true → f a ≠ f b → r a b)
    (l : List α) (n : Nat) (hnd : (l.map f).Nodup) :
    ((l.mergeSort le).take n).Pairwise r := by
  have hs : (l.mergeSort le).Pairwise (fun a b => le a b = true) :=
    List.sorted_mergeSort trans total l
  have hperm : List.Perm ((l.mergeSort le).map f) (l.map f) :=
    (List.mergeSort_perm l le).map f
  have hnd' : ((l.mergeSort le).map f).Nodup := hperm.nodup_iff.mpr hnd
  have hne : (l.mergeSort le).Pairwise (fun a b => f a ≠ f b) :=
    List.pairwise_map.mp hnd'
  exact ((hs.and hne).imp (fun h => himp _ _ h.1 h.2)).sublist
    (List.take_sublist n _)

theorem bidLe_trans (a b c : String × String) :
    bidLe a b → bidLe b c → bidLe a c := by
  intro hab hbc
  simp only [bidLe, decide_eq_true_iff] at *
  exact le_trans hbc hab

theorem bidLe_total (a b : String × String) : bidLe a b || bidLe b a := by
  simp only [bidLe, Bool.or_eq_true, decide_eq_true_iff]
  exact le_total (priceVal b.1) (priceVal a.1)

theorem askLe_trans (a b c : String × String) :
    askLe a b → askLe b c → askLe a c := by
  intro hab hbc
  simp only [askLe, decide_eq_true_iff] at *
  exact le_trans hab hbc

theorem askLe_total (a b : String × String) : askLe a b || askLe b a := by
  simp only [askLe, Bool.or_eq_true, decide_eq_true_iff]
  exact le_total (priceVal a.1) (priceVal b.1)

/-- C5 (amended): `get_top_levels` returns at most `N` entries per side,
bids pairwise non-increasing and asks pairwise non-decreasing by numeric
price; the order is strict whenever the side's numeric prices are
pairwise distinct.  (The embedding is a pure function of the book state:
the call constructs a fresh snapshot and cannot modify the book.) -/
theorem getTopLevels_bounded_sorted (st : OrderBookState) (sym : String)
    (n : Nat) (et : Int) (rt : ℚ) :
    (getTopLevelsState st sym n et rt).bids.length ≤ n ∧
    (getTopLevelsState st sym n et rt).asks.length ≤ n ∧
    (getTopLevelsState st sym n et rt).bids.Pairwise
      (fun a b => priceVal b.1 ≤ priceVal a.1) ∧
    (getTopLevelsState st sym n et rt).asks.Pairwise
      (fun a b => priceVal a.1 ≤ priceVal b.1) ∧
    ((st.bids.map (fun p => priceVal p.1)).Nodup →
      (getTopLevelsState st sym n et rt).bids.Pairwise
        (fun a b => priceVal b.1 < priceVal a.1)) ∧
    ((st.asks.map (fun p => priceVal p.1)).Nodup →
      (getTopLevelsState st sym n et rt).asks.Pairwise
        (fun a b => priceVal a.1 < priceVal b.1)) := by
  refine ⟨List.length_take_le _ _, List.length_take_le _ _, ?_, ?_, ?_, ?_⟩
  · exact (mergeSort_take_sorted bidLe bidLe_trans bidLe_total st.bids n).imp
      (fun h => by simpa [bidLe] using h)
  · exact (mergeSort_take_sorted askLe askLe_trans askLe_total st.asks n).imp
      (fun h => by simpa [askLe] using h)
  · intro hnd
    exact mergeSort_take_strict bidLe _ bidLe_trans bidLe_total
      (fun p => priceVal p.1)
      (fun a b hle hne => lt_of_le_of_ne (by simpa [bidLe] using hle)
        (fun h => hne h.symm))
      st.bids n hnd
  · intro hnd
    exact mergeSort_take_strict askLe _ askLe_trans askLe_total
      (fun p => priceVal p.1)
      (fun a b hle hne => lt_of_le_of_ne (by simpa [askLe] using hle) hne)
      st.asks n hnd

/-- C5 as frozen is false on the code: with two distinct bid price
strings of equal numeric value ("1.0" and "1.00"), the returned bids are
not strictly descending by numeric price. -/
theorem getTopLevels_strict_counterexample :
    ¬ (getTopLevelsState
        { bids := [("1.0", "5"), ("1.00", "6")], asks := [],
          last_update_id := 0, initialized := true, init_time := 0 }
        "BTCUSDT" 2 0 0).bids.Pairwise
      (fun a b => priceVal b.1 < priceVal a.1) := by
  have hsorted : List.Pairwise (fun a b => bidLe a b = true)
      [("1.0", "5"), ("1.00", "6")] := by decide
  have hms : List.mergeSort [("1.0", "5"), ("1.00", "6")] bidLe
      = [("1.0", "5"), ("1.00", "6")] := List.mergeSort_of_sorted hsorted
  show ¬ List.Pairwise (fun a b => priceVal b.1 < priceVal a.1)
      ((List.mergeSort [("1.0", "5"), ("1.00", "6")] bidLe).take 2)
  rw [hms]
  decide

/-- Witness for C5 at a concrete input with pairwise distinct numeric
prices on both sides. -/
theorem getTopLevels_bounded_sorted_witness :
    (([("2.5", "1"), ("1.5", "2")].map
        (fun p : String × String => priceVal p.1)).Nodup ∧
     ([("3.5", "1"), ("4.5", "2")].map
        (fun p : String × String => priceVal p.1)).Nodup) ∧
    (getTopLevelsState
        { bids := [("2.5", "1"), ("1.5", "2")],
          asks := [("3.5", "1"), ("4.5", "2")],
          last_update_id := 9, initialized := true, init_time := 0 }
        "BTCUSDT" 5 0 0).bids.Pairwise
      (fun a b => priceVal b.1 < priceVal a.1) ∧
    (getTopLevelsState
        { bids := [("2.5", "1"), ("1.5", "2")],
          asks := [("3.5", "1"), ("4.5", "2")],
          last_update_id := 9, initialized := true, init_time := 0 }
        "BTCUSDT" 5 0 0).asks.Pairwise
      (fun a b => priceVal a.1 < priceVal b.1) :=
  ⟨⟨by decide, by decide⟩,
   (getTopLevels_bounded_sorted
     { bids := [("2.5", "1"), ("1.5", "2")],
       asks := [("3.5", "1"), ("4.5", "2")],
       last_update_id := 9, initialized := true, init_time := 0 }
     "BTCUSDT" 5 0 0).2.2.2.2.1 (by decide),
   (getTopLevels_bounded_sorted
     { bids := [("2.5", "1"), ("1.5", "2")],
       asks := [("3.5", "1"), ("4.5", "2")],
       last_update_id := 9, initialized := true, init_time := 0 }
     "BTCUSDT" 5 0 0).2.2.2.2.2 (by decide)⟩

/-! ### Claim C9: IntegrityLogger.compute_coverage -/

/-- `IntegrityLogger.compute_coverage`: clamp `gap_seconds` into
`[0, total_seconds]` and return the covered fraction; 0 for a
non-positive denominator. -/
def compute_coverage (total_seconds gap_seconds : ℚ) : ℚ :=
  if total_seconds ≤ 0 then 0
  else (total_seconds - max 0 (min gap_seconds total_seconds)) / total_seconds

/-- C9: `compute_coverage` equals the clamped ratio, is 0 for
non-positive totals, always lies in `[0, 1]`, and takes the three
specified concrete values. -/
theorem compute_coverage_spec (t g : ℚ) :
    (t ≤ 0 → compute_coverage t g = 0) ∧
    (0 < t → compute_coverage t g = (t - max 0 (min g t)) / t) ∧
    0 ≤ compute_coverage t g ∧ compute_coverage t g ≤ 1 ∧
    compute_coverage 3600 3600 = 0 ∧
    compute_coverage 3600 0 = 1 ∧
    compute_coverage 0 g = 0 := by
  have hbounds : 0 ≤ compute_coverage t g ∧ compute_coverage t g ≤ 1 := by
    unfold compute_coverage
    by_cases ht : t ≤ 0
    · simp [ht]
    · rw [if_neg ht]
      push_neg at ht
      have hc0 : (0 : ℚ) ≤ max 0 (min g t) := le_max_left 0 _
      have hct : max 0 (min g t) ≤ t :=
        max_le (le_of_lt ht) (min_le_right g t)
      constructor
      · exact div_nonneg (by linarith) (le_of_lt ht)
      · rw [div_le_one ht]
        linarith
  refine ⟨?_, ?_, hbounds.1, hbounds.2, ?_, ?_, ?_⟩
  · intro ht; simp [compute_coverage, ht]
  · intro ht; simp [compute_coverage, not_le.mpr ht]
  · norm_num [compute_coverage]
  · norm_num [compute_coverage]
  · norm_num [compute_coverage]

/-- Witness for C9 at a concrete input, discharging the positivity
hypothesis. -/
theorem compute_coverage_spec_witness :
    (0 < (2 : ℚ)) ∧
    compute_coverage 2 1 = ((2 : ℚ) - max 0 (min 1 2)) / 2 ∧
    0 ≤ compute_coverage 2 1 ∧ compute_coverage 2 1 ≤ 1 ∧
    compute_coverage 3600 3600 = 0 ∧
    compute_coverage 3600 0 = 1 ∧
    compute_coverage 0 1 = 0 :=
  ⟨by norm_num, (compute_coverage_spec 2 1).2.1 (by norm_num),
   (compute_coverage_spec 2 1).2.2.1, (compute_coverage_spec 2 1).2.2.2.1,
   (compute_coverage_spec 2 1).2.2.2.2.1,
   (compute_coverage_spec 2 1).2.2.2.2.2.1,
   (compute_coverage_spec 2 1).2.2.2.2.2.2⟩

/-! ### DataBuffer (src/buffer.py) -/

/-- `defaultdict(list)[key].append(record)`: extend the list stored under
a key, materializing the key on first access. -/
def appendAt {α : Type} (d : List (String × List α)) (k : String) (r : α) :
    List (String × List α) :=
  if d.any (fun p => p.1 = k) then
    d.map (fun p => if p.1 = k then (k, p.2 ++ [r]) else p)
  else d ++ [(k, [r])]

/-- Lookup in a `defaultdict(list)`: an absent key reads as `[]`. -/
def lookupRecs {α : Type} : List (String × List α) → String → List α
  | [], _ => []
  | p :: d, k => if p.1 = k then p.2 else lookupRecs d k

theorem lookupRecs_map_append_ne {α : Type} (d : List (String × List α))
    (k : String) (r : α) (k' : String) (hk : ¬ k' = k) :
    lookupRecs (d.map (fun p => if p.1 = k then (k, p.2 ++ [r]) else p)) k' =
      lookupRecs d k' := by
  induction d with
  | nil => rfl
  | cons p d ih =>
    by_cases hp : p.1 = k
    · have hkk' : ¬ k = k' := fun h => hk h.symm
      have hpk' : ¬ p.1 = k' := fun h => hk (by rw [← h, hp])
      simp only [List.map_cons, if_pos hp, lookupRecs, if_neg hkk',
        if_neg hpk']
      exact ih
    · by_cases hpk' : p.1 = k'
      · simp [lookupRecs, hp, hpk', hk]
      · simp only [List.map_cons, if_neg hp, lookupRecs, if_neg hpk']
        exact ih

theorem lookupRecs_map_append_self {α : Type} (d : List (String × List α))
    (k : String) (r : α)
    (hmem : d.any (fun p => p.1 = k) = true) :
    lookupRecs (d.map (fun p => if p.1 = k then (k, p.2 ++ [r]) else p)) k =
      lookupRecs d k ++ [r] := by
  induction d with
  | nil => simp at hmem
  | cons p d ih =>
    by_cases hp : p.1 = k
    · simp [lookupRecs, hp]
    · simp only [List.any_cons, Bool.or_eq_true, decide_eq_true_eq] at hmem
      rcases hmem with h | h
      · exact absurd h hp
      · simp only [List.map_cons, if_neg hp, lookupRecs, if_neg hp]
        exact ih h

theorem lookupRecs_eq_nil {α : Type} (d : List (String × List α))
    (k : String) (h : d.any (fun p => p.1 = k) = false) :
    lookupRecs d k = [] := by
  induction d with
  | nil => rfl
  | cons p d ih =>
    simp only [List.any_cons, Bool.or_eq_false_iff,
      decide_eq_false_iff_not] at h
    simp only [lookupRecs, if_neg h.1]
    exact ih h.2

theorem lookupRecs_append_single {α : Type} (d : List (String × List α))
    (k : String) (r : α) (k' : String)
    (hmem : d.any (fun p => p.1 = k) = false) :
    lookupRecs (d ++ [(k, [r])]) k' =
      if k' = k then lookupRecs d k' ++ [r] else lookupRecs d k' := by
  induction d with
  | nil =>
    by_cases hk : k' = k
    · simp [hk, lookupRecs]
    · simp only [List.nil_append, lookupRecs, if_neg hk]
      rw [if_neg (fun h => hk h.symm)]
  | cons p d ih =>
    simp only [List.any_cons, Bool.or_eq_false_iff,
      decide_eq_false_iff_not] at hmem
    by_cases hpk' : p.1 = k'
    · have hk : ¬ k' = k := fun h => hmem.1 (hpk'.trans h)
      simp [lookupRecs, hpk', hk]
    · simp only [List.cons_append, lookupRecs, if_neg hpk']
      exact ih hmem.2

theorem lookupRecs_appendAt {α : Type} (d : List (String × List α))
    (k : String) (r : α) (k' : String) :
    lookupRecs (appendAt d k r) k' =
      if k' = k then lookupRecs d k' ++ [r] else lookupRecs d k' := by
  unfold appendAt
  by_cases hmem : d.any (fun p => p.1 = k)
  · rw [if_pos hmem]
    by_cases hk : k' = k
    · subst hk
      rw [if_pos rfl, lookupRecs_map_append_self d k' r hmem]
    · rw [lookupRecs_map_append_ne d k r k' hk, if_neg hk]
  · have hmem' : d.any (fun p => p.1 = k) = false := by
      simp only [Bool.not_eq_true] at hmem; exact hmem
    rw [if_neg hmem, lookupRecs_append_single d k r k' hmem']

/-- `DataBuffer` from src/buffer.py: per-symbol stores for orderbook,
trade, liquidation and kline records, plus the unkeyed funding list.
(The asyncio lock serializes access; in the sequential embedding each
operation is one atomic step.) -/
structure DataBuffer (α : Type) where
  orderbookData : List (String × List α)
  tradeData : List (String × List α)
  liquidationData : List (String × List α)
  klineData : List (String × List α)
  fundingData : List α
deriving DecidableEq

def emptyBuffer (α : Type) : DataBuffer α :=
  { orderbookData := [], tradeData := [], liquidationData := [],
    klineData := [], fundingData := [] }

/-- The grouped contents returned by `DataBuffer.flush`. -/
structure FlushResult (α : Type) where
  orderbook : List (String × List α)
  trade : List (String × List α)
  liquidation : List (String × List α)
  kline : List (String × List α)
  funding : List α
deriving DecidableEq

/-- `DataBuffer.flush`: return all data and reset the buffer. -/
def flush {α : Type} (b : DataBuffer α) : FlushResult α × DataBuffer α :=
  ({ orderbook := b.orderbookData, trade := b.tradeData,
     liquidation := b.liquidationData, kline := b.klineData,
     funding := b.fundingData },
   emptyBuffer α)

/-- The four keyed record kinds of the buffer. -/
inductive BufKind
  | orderbook
  | trade
  | liquidation
  | kline
deriving DecidableEq

/-- One `add_*` call on the buffer. -/
inductive BufOp (α : Type)
  | addOrderbook (symbol : String) (record : α)
  | addTrade (symbol : String) (record : α)
  | addLiquidation (symbol : String) (record : α)
  | addKline (symbol : String) (record : α)
  | addFundingRate (record : α)
deriving DecidableEq

/-- Apply one `add_*` call (src/buffer.py lines 25-43). -/
def applyBufOp {α : Type} (b : DataBuffer α) : BufOp α → DataBuffer α
  | .addOrderbook s r => { b with orderbookData := appendAt b.orderbookData s r }
  | .addTrade s r => { b with tradeData := appendAt b.tradeData s r }
  | .addLiquidation s r => { b with liquidationData := appendAt b.liquidationData s r }
  | .addKline s r => { b with klineData := appendAt b.klineData s r }
  | .addFundingRate r => { b with fundingData := b.fundingData ++ [r] }

def runBufOps {α : Type} (b : DataBuffer α) (ops : List (BufOp α)) : DataBuffer α :=
  ops.foldl applyBufOp b

/-- Read one keyed group out of the buffer. -/
def bufGet {α : Type} (b : DataBuffer α) : BufKind → String → List α
  | .orderbook, s => lookupRecs b.orderbookData s
  | .trade, s => lookupRecs b.tradeData s
  | .liquidation, s => lookupRecs b.liquidationData s
  | .kline, s => lookupRecs b.klineData s

/-- Read one keyed group out of a flush result. -/
def resGet {α : Type} (r : FlushResult α) : BufKind → String → List α
  | .orderbook, s => lookupRecs r.orderbook s
  | .trade, s => lookupRecs r.trade s
  | .liquidation, s => lookupRecs r.liquidation s
  | .kline, s => lookupRecs r.kline s

/-- Specification function: the records a single `add_*` call contributes
to the (kind, symbol) group. -/
def opRecs {α : Type} : BufOp α → BufKind → String → List α
  | .addOrderbook s' r, .orderbook, s => if s' = s then [r] else []
  | .addTrade s' r, .trade, s => if s' = s then [r] else []
  | .addLiquidation s' r, .liquidation, s => if s' = s then [r] else []
  | .addKline s' r, .kline, s => if s' = s then [r] else []
  | _, _, _ => []

/-- Specification function: all records added to a (kind, symbol) group
by a sequence of calls, in order. -/
def addedRecords {α : Type} : List (BufOp α) → BufKind → String → List α
  | [], _, _ => []
  | op :: ops, k, s => opRecs op k s ++ addedRecords ops k s

/-- Specification function: all funding records added, in order. -/
def addedFunding {α : Type} : List (BufOp α) → List α
  | [] => []
  | .addFundingRate r :: ops => r :: addedFunding ops
  | _ :: ops => addedFunding ops

theorem bufGet_applyBufOp {α : Type} (b : DataBuffer α) (op : BufOp α)
    (k : BufKind) (s : String) :
    bufGet (applyBufOp b op) k s = bufGet b k s ++ opRecs op k s := by
  cases op with
  | addOrderbook s' r =>
    cases k <;>
      simp only [applyBufOp, bufGet, opRecs, lookupRecs_appendAt,
        List.append_nil] <;>
      try rfl
    by_cases h : s' = s
    · rw [if_pos (h.symm), if_pos h]
    · rw [if_neg (fun hh => h hh.symm), if_neg h, List.append_nil]
  | addTrade s' r =>
    cases k <;>
      simp only [applyBufOp, bufGet, opRecs, lookupRecs_appendAt,
        List.append_nil] <;>
      try rfl
    by_cases h : s' = s
    · rw [if_pos (h.symm), if_pos h]
    · rw [if_neg (fun hh => h hh.symm), if_neg h, List.append_nil]
  | addLiquidation s' r =>
    cases k <;>
      simp only [applyBufOp, bufGet, opRecs, lookupRecs_appendAt,
        List.append_nil] <;>
      try rfl
    by_cases h : s' = s
    · rw [if_pos (h.symm), if_pos h]
    · rw [if_neg (fun hh => h hh.symm), if_neg h, List.append_nil]
  | addKline s' r =>
    cases k <;>
      simp only [applyBufOp, bufGet, opRecs, lookupRecs_appendAt,
        List.append_nil] <;>
      try rfl
    by_cases h : s' = s
    · rw [if_pos (h.symm), if_pos h]
    · rw [if_neg (fun hh => h hh.symm), if_neg h, List.append_nil]
  | addFundingRate r =>
    cases k <;> simp [applyBufOp, bufGet, opRecs]

theorem bufGet_runBufOps {α : Type} (ops : List (BufOp α)) (b : DataBuffer α)
    (k : BufKind) (s : String) :
    bufGet (runBufOps b ops) k s = bufGet b k s ++ addedRecords ops k s := by
  induction ops generalizing b with
  | nil => simp [runBufOps, addedRecords]
  | cons op ops ih =>
    show bufGet (runBufOps (applyBufOp b op) ops) k s = _
    rw [ih, bufGet_applyBufOp]
    simp [addedRecords]

theorem funding_applyBufOp {α : Type} (b : DataBuffer α) (op : BufOp α) :
    (applyBufOp b op).fundingData =
      b.fundingData ++ addedFunding [op] := by
  cases op <;> simp [applyBufOp, addedFunding]

theorem funding_runBufOps {α : Type} (ops : List (BufOp α)) (b : DataBuffer α) :
    (runBufOps b ops).fundingData = b.fundingData ++ addedFunding ops := by
  induction ops generalizing b with
  | nil => simp [runBufOps, addedFunding]
  | cons op ops ih =>
    show (runBufOps (applyBufOp b op) ops).fundingData = _
    rw [ih, funding_applyBufOp]
    cases op <;> simp [addedFunding, applyBufOp]

theorem resGet_flush {α : Type} (b : DataBuffer α) (k : BufKind) (s : String) :
    resGet (flush b).1 k s = bufGet b k s := by
  cases k <;> rfl

theorem bufGet_empty {α : Type} (k : BufKind) (s : String) :
    bufGet (emptyBuffer α) k s = [] := by
  cases k <;> rfl

/-! ### Claim C6: drain exactness of the buffer -/

/-- C6: after any sequence of `add_*` calls on a fresh buffer, `flush`
returns, under every (kind, instrument) group, exactly the records added
to that group in order (so nothing is lost, double-counted, or visible
under any other group), the funding list is exactly the funding records
added, the buffer is left empty, and a second `flush` with no intervening
adds returns only empty groups. -/
theorem buffer_flush_exact {α : Type} (ops : List (BufOp α)) (k : BufKind)
    (s : String) :
    resGet (flush (runBufOps (emptyBuffer α) ops)).1 k s = addedRecords ops k s ∧
    (flush (runBufOps (emptyBuffer α) ops)).1.funding = addedFunding ops ∧
    (flush (runBufOps (emptyBuffer α) ops)).2 = emptyBuffer α ∧
    resGet (flush ((flush (runBufOps (emptyBuffer α) ops)).2)).1 k s = [] ∧
    (flush ((flush (runBufOps (emptyBuffer α) ops)).2)).1.funding = [] := by
  refine ⟨?_, ?_, rfl, ?_, rfl⟩
  · rw [resGet_flush, bufGet_runBufOps, bufGet_empty, List.nil_append]
  · show (runBufOps (emptyBuffer α) ops).fundingData = addedFunding ops
    rw [funding_runBufOps]
    rfl
  · rw [resGet_flush]
    exact bufGet_empty k s

/-! ### Syncer (src/syncer.py) -/

/-- The configuration fields `Syncer` reads. -/
structure SyncConfig where
  cloud_remote : String
  cloud_path : String
  cleanup_days : ℚ
  data_dir : String
deriving DecidableEq

/-- `Syncer` state: pending-upload queue and confirmed-uploaded set
(`_synced_files`, modelled as a duplicate-free insertion list). -/
structure SyncerState where
  pending_queue : List String
  synced_files : List String
deriving DecidableEq

/-- Python `set.add`. -/
def setAdd (s : List String) (x : String) : List String :=
  if x ∈ s then s else s ++ [x]

/-- Outcome of the external `rclone copy` subprocess invocation. -/
inductive RcloneOutcome
  | success
  | failure (returncode : Int)
  | exc
deriving DecidableEq

/-- One record_sync entry appended to the integrity logger. -/
def recordSync (l : IntegrityLoggerState) (filepath status : String) :
    IntegrityLoggerState :=
  { l with sync_events := l.sync_events ++ [(filepath, status)] }

/-- `Syncer.sync_file`: returns whether the upload succeeded together
with the updated syncer and logger state.  With an empty `cloud_remote`
it returns `False` before touching anything; otherwise the subprocess
outcome decides between marking the file synced and re-enqueueing it. -/
def syncFile (cfg : SyncConfig) (st : SyncerState) (log : IntegrityLoggerState)
    (filepath : String) (outcome : RcloneOutcome) :
    Bool × SyncerState × IntegrityLoggerState :=
  if cfg.cloud_remote = "" then (false, st, log)
  else
    match outcome with
    | .success =>
      (true, { st with synced_files := setAdd st.synced_files filepath },
       recordSync log filepath "success")
    | .failure _ =>
      (false, { st with pending_queue := st.pending_queue ++ [filepath] },
       recordSync log filepath "failed")
    | .exc =>
      (false, { st with pending_queue := st.pending_queue ++ [filepath] },
       recordSync log filepath "failed")

/-- A whole sequence of `sync_file` calls. -/
def runSyncs (cfg : SyncConfig) (st : SyncerState) (log : IntegrityLoggerState) :
    List (String × RcloneOutcome) → SyncerState × IntegrityLoggerState
  | [] => (st, log)
  | (fp, oc) :: rest =>
    let r := syncFile cfg st log fp oc
    runSyncs cfg r.2.1 r.2.2 rest

/-- One file description as consumed by `Syncer.get_files_to_delete`. -/
structure FileDesc where
  path : String
  age_days : ℚ
  synced : Bool
deriving DecidableEq

/-- `Syncer.get_files_to_delete`: keep exactly the paths of files old
enough and upload-confirmed. -/
def get_files_to_delete (cfg : SyncConfig) (files : List FileDesc) :
    List String :=
  (files.filter (fun f => decide (cfg.cleanup_days ≤ f.age_days) && f.synced)).map
    (fun f => f.path)

/-! ### Claim C8: retention gate -/

/-- C8: a path is selected for deletion iff some listed file with that
path is both old enough (age >= cleanup_days) and upload-confirmed; and
with an unconfigured remote `sync_file` never succeeds and never touches
the synced set, so across any call sequence the synced set stays as it
was and files it does not contain are never selected. -/
theorem retention_gate (cfg : SyncConfig) (files : List FileDesc)
    (p : String) (st : SyncerState) (log : IntegrityLoggerState)
    (calls : List (String × RcloneOutcome)) :
    (p ∈ get_files_to_delete cfg files ↔
      ∃ f ∈ files, f.path = p ∧ cfg.cleanup_days ≤ f.age_days ∧
        f.synced = true) ∧
    (cfg.cloud_remote = "" →
      (∀ fp oc, (syncFile cfg st log fp oc).1 = false ∧
        (syncFile cfg st log fp oc).2.1 = st) ∧
      (runSyncs cfg st log calls).1 = st) := by
  constructor
  · unfold get_files_to_delete
    simp only [List.mem_map, List.mem_filter, Bool.and_eq_true,
      decide_eq_true_eq]
    constructor
    · rintro ⟨f, ⟨hf, hage, hsync⟩, hp⟩
      exact ⟨f, hf, hp, hage, hsync⟩
    · rintro ⟨f, hf, hp, hage, hsync⟩
      exact ⟨f, ⟨hf, hage, hsync⟩, hp⟩
  · intro hremote
    have hstep : ∀ st' log' fp oc,
        syncFile cfg st' log' fp oc = (false, st', log') := by
      intro st' log' fp oc
      unfold syncFile
      rw [if_pos hremote]
    refine ⟨fun fp oc => by rw [hstep]; exact ⟨rfl, rfl⟩, ?_⟩
    induction calls generalizing st log with
    | nil => rfl
    | cons c rest ih =>
      show (runSyncs cfg (syncFile cfg st log c.1 c.2).2.1
        (syncFile cfg st log c.1 c.2).2.2 rest).1 = st
      rw [hstep]
      exact ih st log

/-- Witness for C8 at a concrete input. -/
theorem retention_gate_witness :
    (("a.parquet" ∈ get_files_to_delete
        { cloud_remote := "", cloud_path := "bucket", cleanup_days := 7,
          data_dir := "data" }
        [{ path := "a.parquet", age_days := 9, synced := true },
         { path := "b.parquet", age_days := 9, synced := false }] ↔
      ∃ f ∈ [({ path := "a.parquet", age_days := 9, synced := true } : FileDesc),
             { path := "b.parquet", age_days := 9, synced := false }],
        f.path = "a.parquet" ∧ (7 : ℚ) ≤ f.age_days ∧ f.synced = true)) ∧
    (({ cloud_remote := "", cloud_path := "bucket", cleanup_days := 7,
        data_dir := "data" } : SyncConfig).cloud_remote = "" →
      (∀ fp oc, (syncFile
          { cloud_remote := "", cloud_path := "bucket", cleanup_days := 7,
            data_dir := "data" }
          { pending_queue := [], synced_files := [] }
          { gaps := [], sync_events := [] } fp oc).1 = false ∧
        (syncFile
          { cloud_remote := "", cloud_path := "bucket", cleanup_days := 7,
            data_dir := "data" }
          { pending_queue := [], synced_files := [] }
          { gaps := [], sync_events := [] } fp oc).2.1 =
          { pending_queue := [], synced_files := [] }) ∧
      (runSyncs
        { cloud_remote := "", cloud_path := "bucket", cleanup_days := 7,
          data_dir := "data" }
        { pending_queue := [], synced_files := [] }
        { gaps := [], sync_events := [] }
        [("a.parquet", RcloneOutcome.success),
         ("a.parquet", RcloneOutcome.exc)]).1 =
        { pending_queue := [], synced_files := [] }) :=
  retention_gate
    { cloud_remote := "", cloud_path := "bucket", cleanup_days := 7,
      data_dir := "data" }
    [{ path := "a.parquet", age_days := 9, synced := true },
     { path := "b.parquet", age_days := 9, synced := false }]
    "a.parquet"
    { pending_queue := [], synced_files := [] }
    { gaps := [], sync_events := [] }
    [("a.parquet", RcloneOutcome.success), ("a.parquet", RcloneOutcome.exc)]

/-! ### Flusher (src/flusher.py) -/

/-- `Flusher._generate_filename`; `ts` models
`timestamp.strftime("%Y%m%d_%H%M")`. -/
def generateFilename (symbol datatype ts : String) : String :=
  upper symbol ++ "_" ++ datatype ++ "_" ++ ts ++ ".parquet"

/-- The non-empty (symbol, records) groups of one datatype, in iteration
order, paired with their output filenames. -/
def keyedJobs {α : Type} (datatype : String) (groups : List (String × List α))
    (ts : String) : List (String × List α) :=
  (groups.filter (fun g => !g.2.isEmpty)).map
    (fun g => (generateFilename g.1 datatype ts, g.2))

/-- All file-write jobs of one `flush_now` call over drained buffer
contents, in the order the code visits them: the four keyed datatypes,
then the consolidated funding file. -/
def flushJobs {α : Type} (data : FlushResult α) (ts : String) :
    List (String × List α) :=
  keyedJobs "orderbook" data.orderbook ts ++
  keyedJobs "trade" data.trade ts ++
  keyedJobs "liquidation" data.liquidation ts ++
  keyedJobs "kline" data.kline ts ++
  (if data.funding.isEmpty then []
   else [("funding_rate_" ++ ts ++ ".parquet", data.funding)])

/-- Observable outcome of one `flush_now` call: which files were
attempted, which were written, and whether an exception escaped. -/
structure FlushOutcome where
  attempted : List String
  created : List String
  failed : Bool
deriving DecidableEq

/-- The write loop of `flush_now`.  `writeFails` is the oracle saying
whether writing a given file raises.  There is no per-group handler in
the source: the first failing write raises out of the loop, so later
jobs are not attempted. -/
def runJobs {α : Type} (writeFails : String → Bool) :
    List (String × List α) → FlushOutcome
  | [] => { attempted := [], created := [], failed := false }
  | (fname, _) :: rest =>
    if writeFails fname then
      { attempted := [fname], created := [], failed := true }
    else
      let o := runJobs writeFails rest
      { attempted := fname :: o.attempted, created := fname :: o.created,
        failed := o.failed }

/-- `Flusher.flush_now` over already-drained contents (checksum ledger
and integrity/sync notifications elided: they do not affect which groups
are attempted). -/
def flushNow {α : Type} (data : FlushResult α) (ts : String)
    (writeFails : String → Bool) : FlushOutcome :=
  runJobs writeFails (flushJobs data ts)

/-- Result of one timer tick of `Flusher.run`: either `flush_now`
returned file paths or it raised with a message. -/
inductive TickOutcome
  | ok (files : List String)
  | err (msg : String)
deriving DecidableEq

/-- The body of the `while True` loop in `Flusher.run`: an exception
from `flush_now` is caught and logged, and the loop goes on. -/
def runTick (log : List String) (t : TickOutcome) : List String :=
  match t with
  | .ok _ => log
  | .err m => log ++ [m]

/-- The flush loop over a sequence of tick outcomes. -/
def flushLoop (ticks : List TickOutcome) : List String :=
  ticks.foldl runTick []

/-! ### Claim C7: failure semantics of flush_now and the flush loop -/

/-- C7 as frozen is false on the code: with two non-empty groups in one
flush and the first group's write failing, the second group's file is
never attempted — `flush_now` has no per-group handler, the exception
aborts the loop. -/
theorem flushNow_abort_counterexample :
    (flushNow
      ({ orderbook := [("BTCUSDT", [0])], trade := [("BTCUSDT", [0])],
         liquidation := [], kline := [], funding := [] } : FlushResult Nat)
      "20240101_0000"
      (fun f => f = "BTCUSDT_orderbook_20240101_0000.parquet")).failed = true ∧
    "BTCUSDT_trade_20240101_0000.parquet" ∉
      (flushNow
        ({ orderbook := [("BTCUSDT", [0])], trade := [("BTCUSDT", [0])],
           liquidation := [], kline := [], funding := [] } : FlushResult Nat)
        "20240101_0000"
        (fun f => f = "BTCUSDT_orderbook_20240101_0000.parquet")).attempted ∧
    (flushNow
      ({ orderbook := [("BTCUSDT", [0])], trade := [("BTCUSDT", [0])],
         liquidation := [], kline := [], funding := [] } : FlushResult Nat)
      "20240101_0000"
      (fun f => f = "BTCUSDT_orderbook_20240101_0000.parquet")).attempted =
      ["BTCUSDT_orderbook_20240101_0000.parquet"] := by
  refine ⟨?_, ?_, ?_⟩ <;> decide

/-- C7 (amended): within one flush, the first failing write aborts the
job loop — the jobs before it are attempted and written, the failing one
is attempted, and every job after it is not attempted — and the
exception escapes `flush_now`; the flush loop catches every such error,
logs it, and goes on to process every subsequent tick (the log after the
loop holds exactly the error messages, in order). -/
theorem flush_failure_aborts_rest_loop_continues {α : Type}
    (writeFails : String → Bool) (pre : List (String × List α))
    (j : String × List α) (post : List (String × List α))
    (ticks : List TickOutcome)
    (hpre : ∀ q ∈ pre, writeFails q.1 = false)
    (hj : writeFails j.1 = true) :
    runJobs writeFails (pre ++ j :: post) =
      { attempted := pre.map (fun q => q.1) ++ [j.1],
        created := pre.map (fun q => q.1), failed := true } ∧
    flushLoop ticks = ticks.filterMap
      (fun t => match t with | .err m => some m | .ok _ => none) := by
  constructor
  · induction pre with
    | nil => simp [runJobs, hj]
    | cons q pre ih =>
      have hq : writeFails q.1 = false := hpre q (List.mem_cons_self q pre)
      have hrest : ∀ r ∈ pre, writeFails r.1 = false :=
        fun r hr => hpre r (List.mem_cons_of_mem q hr)
      show runJobs writeFails ((q.1, q.2) :: (pre ++ j :: post)) = _
      simp only [runJobs, hq, Bool.false_eq_true, if_false, ih hrest,
        List.map_cons, List.cons_append]
  · have haux : ∀ (acc : List String) (ts : List TickOutcome),
        ts.foldl runTick acc = acc ++ ts.filterMap
          (fun t => match t with | .err m => some m | .ok _ => none) := by
      intro acc ts
      induction ts generalizing acc with
      | nil => simp
      | cons t ts ih =>
        cases t with
        | ok fs => simp [runTick, ih, List.filterMap]
        | err m => simp [runTick, ih, List.filterMap]
    exact haux [] ticks

/-- Witness for C7 (amended) at a concrete input. -/
theorem flush_failure_aborts_rest_loop_continues_witness :
    (∀ q ∈ ([("A.parquet", [0])] : List (String × List Nat)),
      (fun f => decide (f = "B.parquet")) q.1 = false) ∧
    (fun f => decide (f = "B.parquet")) ("B.parquet", ([1] : List Nat)).1 = true ∧
    runJobs (fun f => decide (f = "B.parquet"))
        ([("A.parquet", [0])] ++ ("B.parquet", [1]) :: [("C.parquet", [2])]) =
      { attempted := ["A.parquet", "B.parquet"],
        created := ["A.parquet"], failed := true } ∧
    flushLoop [TickOutcome.err "boom", TickOutcome.ok ["f"],
        TickOutcome.err "again"] =
      [TickOutcome.err "boom", TickOutcome.ok ["f"],
        TickOutcome.err "again"].filterMap
        (fun t => match t with | .err m => some m | .ok _ => none) :=
  ⟨by decide, by decide,
   (flush_failure_aborts_rest_loop_continues
      (fun f => decide (f = "B.parquet"))
      [("A.parquet", [0])] ("B.parquet", [1]) [("C.parquet", [2])]
      [TickOutcome.err "boom", TickOutcome.ok ["f"], TickOutcome.err "again"]
      (by decide) (by decide)).1,
   (flush_failure_aborts_rest_loop_continues
      (fun f => decide (f = "B.parquet"))
      [("A.parquet", [0])] ("B.parquet", [1]) [("C.parquet", [2])]
      [TickOutcome.err "boom", TickOutcome.ok ["f"], TickOutcome.err "again"]
      (by decide) (by decide)).2⟩
